import Mathlib

/-!
# Verification of the RipeTomato weather-monitoring agent

Shallow embedding, in Lean 4, of the parts of the Python sources
`weather_monitoring_agent.py`, `base_agent.py` and `noaa_weather_service.py`
that the specification's claims are about, together with theorems settling
each claim.

Modelling conventions:
* Python floats are modelled as `ℚ`; Python ints as `ℤ` / `ℕ`.
* ISO-8601 timestamp strings are modelled by the instant they decode to,
  as an integer number of seconds (`ℤ`); the code always compares the
  decoded `datetime` values (`datetime.fromisoformat`), never raw strings.
* Opaque JSON sub-values that the modelled code passes through without
  inspecting (message `source`, `destination`, `payload`, `metadata` in the
  round-trip claim) are modelled as `String`.
* `random.*` draws are explicit parameters of the simulator, one per call
  site, so theorems quantify over every outcome of the randomness.
* `datetime.now` / `time.time` are explicit clock parameters.
-/

namespace RipeTomato

/-! ## Data model: `WeatherReading` (weather_monitoring_agent.py, lines 55-74) -/

/-- `WeatherReading` dataclass: one weather observation.  `timestamp` is the
decoded instant of the ISO string, in seconds. -/
structure WeatherReading where
  timestamp : ℤ
  temperature_f : ℚ
  humidity_percent : ℚ
  precipitation_inches : ℚ
  wind_speed_mph : ℚ
  wind_direction : String
  pressure_mb : ℚ
  visibility_miles : ℚ
  conditions : String
  uv_index : ℤ
deriving DecidableEq, Repr

/-- The dictionary produced by `dataclasses.asdict` on a `WeatherReading`:
same fields, field for field. -/
structure WeatherReadingDict where
  timestamp : ℤ
  temperature_f : ℚ
  humidity_percent : ℚ
  precipitation_inches : ℚ
  wind_speed_mph : ℚ
  wind_direction : String
  pressure_mb : ℚ
  visibility_miles : ℚ
  conditions : String
  uv_index : ℤ
deriving DecidableEq, Repr

/-- `WeatherReading.to_dict`: `asdict(self)`. -/
def WeatherReading.to_dict (r : WeatherReading) : WeatherReadingDict :=
  ⟨r.timestamp, r.temperature_f, r.humidity_percent, r.precipitation_inches,
   r.wind_speed_mph, r.wind_direction, r.pressure_mb, r.visibility_miles,
   r.conditions, r.uv_index⟩

/-- `WeatherReading.from_dict`: `cls(**data)`. -/
def WeatherReading.from_dict (d : WeatherReadingDict) : WeatherReading :=
  ⟨d.timestamp, d.temperature_f, d.humidity_percent, d.precipitation_inches,
   d.wind_speed_mph, d.wind_direction, d.pressure_mb, d.visibility_miles,
   d.conditions, d.uv_index⟩

/-! ## Data model: `CrossLanguageMessage` (base_agent.py, lines 45-85)

The constructor takes `msg_id, msg_type, source, destination, payload,
metadata` and sets `self.timestamp = datetime.now(timezone.utc).isoformat()`
— the clock, not a parameter.  We therefore model the constructor with an
explicit `now` argument.  `source`/`destination`/`payload`/`metadata` are
passed through uninspected and modelled as `String`. -/

structure CrossLanguageMessage where
  id : String
  type : String
  timestamp : ℤ
  source : String
  destination : String
  payload : String
  metadata : String
deriving DecidableEq, Repr

/-- `CrossLanguageMessage.__init__`: stores the six arguments and stamps the
message with the current clock (`datetime.now(timezone.utc)`). -/
def CrossLanguageMessage.make (now : ℤ) (msg_id msg_type source destination payload metadata : String) :
    CrossLanguageMessage :=
  ⟨msg_id, msg_type, now, source, destination, payload, metadata⟩

/-- The dictionary built by `CrossLanguageMessage.to_dict`: all seven
attributes, including `timestamp`. -/
structure MessageDict where
  id : String
  timestamp : ℤ
  type : String
  source : String
  destination : String
  payload : String
  metadata : String
deriving DecidableEq, Repr

/-- `CrossLanguageMessage.to_dict`. -/
def CrossLanguageMessage.to_dict (m : CrossLanguageMessage) : MessageDict :=
  ⟨m.id, m.timestamp, m.type, m.source, m.destination, m.payload, m.metadata⟩

/-- `CrossLanguageMessage.from_dict`: calls the constructor with
`data['id'], data['type'], data['source'], data['destination'],
data['payload'], data['metadata']` — the dictionary's `timestamp` entry is
never read, so the decoded message is stamped with the decode-time clock. -/
def CrossLanguageMessage.from_dict (now : ℤ) (d : MessageDict) : CrossLanguageMessage :=
  CrossLanguageMessage.make now d.id d.type d.source d.destination d.payload d.metadata

/-! ## Advisory mirror: `_check_noaa_alerts` (weather_monitoring_agent.py, lines 738-763) -/

/-- `NOAAAlert` dataclass (noaa_weather_service.py, lines 65-85). -/
structure NOAAAlert where
  alert_id : String
  event : String
  severity : String
  certainty : String
  urgency : String
  headline : String
  description : String
  instruction : Option String
  areas : List String
  effective : String
  expires : String
  sender : String
  status : String
  message_type : String
deriving DecidableEq, Repr

/-- One execution of `_check_noaa_alerts` as a function of the advisory
cache (`self.noaa_alerts`), returning `(broadcast advisories, new cache)`.

* `enabled` is `self.use_real_weather and self.noaa_service and
  self.noaa_location and NOAA_AVAILABLE`: when false the method returns
  immediately.
* `fetch = none` models the `except` branch: `get_active_alerts` raised, the
  error is logged and the cache is left unchanged, nothing is broadcast.
* On a successful fetch: `existing_alert_ids` is the id set of the *current
  cache*, the new alerts are those fetched alerts whose id is not in it,
  the cache is replaced wholesale by the fetched list, and exactly the new
  alerts are broadcast. -/
def check_noaa_alerts (enabled : Bool) (noaa_alerts : List NOAAAlert)
    (fetch : Option (List NOAAAlert)) : List NOAAAlert × List NOAAAlert :=
  if !enabled then ([], noaa_alerts)
  else
    match fetch with
    | none => ([], noaa_alerts)
    | some current_alerts =>
        let existing_alert_ids := noaa_alerts.map (fun a => a.alert_id)
        let new_alerts := current_alerts.filter
          (fun a => !existing_alert_ids.contains a.alert_id)
        (new_alerts, current_alerts)

/-- A sequence of advisory polls: fold `check_noaa_alerts` (enabled) over the
poll results, accumulating every broadcast advisory in order. -/
def runNoaaPolls (init : List NOAAAlert) (polls : List (Option (List NOAAAlert))) :
    List NOAAAlert × List NOAAAlert :=
  polls.foldl
    (fun acc p =>
      let r := check_noaa_alerts true acc.2 p
      (acc.1 ++ r.1, r.2))
    ([], init)

/-- A sample advisory used to exercise the mirror. -/
def sampleAdvisory : NOAAAlert :=
  ⟨"NWS-A1", "Flood Warning", "Severe", "Observed", "Immediate",
   "Flood warning for Ada County", "River flooding expected", none,
   ["Ada County"], "2025-01-01T00:00:00Z", "2025-01-02T00:00:00Z",
   "NWS Boise", "Actual", "Alert"⟩

/-! ## NOAA fetch retry: `_make_request` (noaa_weather_service.py, lines 133-173) -/

/-- Upstream response to one HTTP request issued by `_make_request`. -/
inductive NoaaResponse where
  | ok (data : String)
  | notFound
  | throttled
  | otherError
deriving DecidableEq, Repr

/-- `_make_request`, run against a finite prefix of upstream responses
(one response consumed per HTTP request issued).

* status 200 → return the data; 404 / other status / client error → `none`;
* status 429 → sleep 5 s and `return await self._make_request(url)` — the
  code re-invokes itself with no retry counter, so it keeps consuming
  responses until a non-429 one arrives.

The result is `some (answer, requestsIssued)` when the call completes within
the given prefix, and `none` when the prefix is exhausted with the call still
re-requesting — i.e. the call has not terminated after that many upstream
responses. -/
def make_request : List NoaaResponse → Option (Option String × ℕ)
  | [] => none
  | r :: rest =>
    match r with
    | NoaaResponse.ok data => some (some data, 1)
    | NoaaResponse.notFound => some (none, 1)
    | NoaaResponse.otherError => some (none, 1)
    | NoaaResponse.throttled =>
        match make_request rest with
        | none => none
        | some (answer, n) => some (answer, n + 1)

/-! ## Capabilities (weather_monitoring_agent.py, lines 326-341 and 233-244;
base_agent.py, lines 109-116 and 239-262) -/

/-- The literal list returned by `WeatherMonitoringAgent.get_capabilities`
and carried in the ready handshake (`send_ready_message` puts
`await self.get_capabilities()` in the payload). -/
def get_capabilities : List String :=
  ["ping", "status", "heartbeat",
   "start_monitoring", "stop_monitoring",
   "get_current_weather", "get_weather_history",
   "get_weather_forecast", "get_weather_alerts",
   "weather_analysis_request"] ++
  ["get_noaa_alerts", "refresh_noaa_data"]

/-- Message types registered by `BaseAgent.register_default_handlers`. -/
def default_handler_types : List String :=
  ["ping", "shutdown", "get_status", "heartbeat_request"]

/-- Message types registered by
`WeatherMonitoringAgent.register_weather_handlers`. -/
def weather_handler_types : List String :=
  ["start_monitoring", "stop_monitoring", "get_current_weather",
   "get_weather_history", "get_weather_forecast", "get_weather_alerts",
   "update_alert_thresholds", "weather_analysis_request",
   "get_noaa_alerts", "refresh_noaa_data"]

/-- Every request type with a registered handler: the defaults plus the
weather handlers. -/
def registered_handler_types : List String :=
  default_handler_types ++ weather_handler_types

/-! ## Weather alert structure and builders
(weather_monitoring_agent.py, lines 76-88 and 481-605) -/

/-- `WeatherAlert` dataclass.  `timestamp` is the decoded instant of the ISO
string, as for `WeatherReading`. -/
structure WeatherAlert where
  alert_id : String
  timestamp : ℤ
  alert_type : String
  severity : String
  message : String
  recommendations : List String
  affected_services : List String
deriving DecidableEq, Repr

/-- `_create_temperature_alert`.  `t` is the clock value `int(time.time())`
used in the alert id; the numeric value in the message text is rendered with
`toString` in place of Python float formatting (no claim inspects it). -/
def create_temperature_alert (reading : WeatherReading) (temp_type : String) (t : ℤ) :
    WeatherAlert :=
  let severity :=
    if (temp_type = "high" ∧ reading.temperature_f > 100) ∨
       (temp_type = "low" ∧ reading.temperature_f < 10) then "extreme" else "high"
  let message :=
    if temp_type = "high" then
      "Extreme heat warning: " ++ toString reading.temperature_f ++ "°F"
    else
      "Extreme cold warning: " ++ toString reading.temperature_f ++ "°F"
  let recommendations :=
    if temp_type = "high" then
      ["Open cooling centers for vulnerable populations",
       "Increase hydration stations at outdoor events",
       "Consider rescheduling outdoor activities",
       "Check on elderly and homeless individuals"]
    else
      ["Open warming centers immediately",
       "Conduct wellness checks on homeless population",
       "Prepare for increased shelter demand",
       "Check heating systems in facilities"]
  { alert_id := "temp_" ++ temp_type ++ "_" ++ toString t
    timestamp := reading.timestamp
    alert_type := "temperature"
    severity := severity
    message := message
    recommendations := recommendations
    affected_services := ["shelter", "outreach", "outdoor_events", "transportation"] }

/-- `_create_precipitation_alert`. -/
def create_precipitation_alert (reading : WeatherReading) (precip_type : String) (t : ℤ) :
    WeatherAlert :=
  let severity := if precip_type = "extreme" then "extreme" else "high"
  let message :=
    precip_type ++ " precipitation: " ++ toString reading.precipitation_inches
      ++ "\x22 per hour"
  let recommendations :=
    ["Monitor for flooding in low-lying areas",
     "Prepare emergency transportation",
     "Check drainage systems around facilities",
     "Consider postponing outdoor events"] ++
    (if precip_type = "extreme" then
      ["Activate emergency response protocols",
       "Prepare evacuation routes",
       "Coordinate with emergency services"]
     else [])
  { alert_id := "precip_" ++ precip_type ++ "_" ++ toString t
    timestamp := reading.timestamp
    alert_type := "precipitation"
    severity := severity
    message := message
    recommendations := recommendations
    affected_services := ["transportation", "outdoor_events", "facility_operations"] }

/-- `_create_wind_alert`. -/
def create_wind_alert (reading : WeatherReading) (wind_type : String) (t : ℤ) :
    WeatherAlert :=
  let severity := if wind_type = "extreme" then "extreme" else "high"
  let message :=
    wind_type ++ " winds: " ++ toString reading.wind_speed_mph ++ " mph from "
      ++ reading.wind_direction
  let recommendations :=
    ["Secure outdoor equipment and signage",
     "Check building integrity",
     "Avoid outdoor activities",
     "Monitor for power outages"] ++
    (if wind_type = "extreme" then
      ["Consider facility evacuation if necessary",
       "Prepare for extended power outages",
       "Coordinate with emergency services"]
     else [])
  { alert_id := "wind_" ++ wind_type ++ "_" ++ toString t
    timestamp := reading.timestamp
    alert_type := "wind"
    severity := severity
    message := message
    recommendations := recommendations
    affected_services := ["facility_operations", "outdoor_events", "transportation"] }

/-- `_create_visibility_alert`. -/
def create_visibility_alert (reading : WeatherReading) (t : ℤ) : WeatherAlert :=
  { alert_id := "visibility_" ++ toString t
    timestamp := reading.timestamp
    alert_type := "visibility"
    severity := "medium"
    message := "Low visibility conditions: " ++ toString reading.visibility_miles ++ " miles"
    recommendations :=
      ["Use caution with transportation services",
       "Increase lighting at outdoor facilities",
       "Consider delaying non-essential travel",
       "Enhance safety protocols for outdoor staff"]
    affected_services := ["transportation", "outreach", "outdoor_events"] }

/-- `_create_uv_alert`. -/
def create_uv_alert (reading : WeatherReading) (t : ℤ) : WeatherAlert :=
  { alert_id := "uv_" ++ toString t
    timestamp := reading.timestamp
    alert_type := "uv"
    severity := "medium"
    message := "Extreme UV levels: Index " ++ toString reading.uv_index
    recommendations :=
      ["Provide sunscreen at outdoor events",
       "Ensure shaded areas are available",
       "Limit prolonged outdoor exposure",
       "Educate staff about UV protection"]
    affected_services := ["outdoor_events", "outreach", "recreation"] }

/-! ## Alert engine: `_check_weather_alerts`
(weather_monitoring_agent.py, lines 430-479) -/

/-- Threshold lookup `self.alert_thresholds[key]`.  The thresholds map is an
association list (Python dict, insertion-ordered); all eight keys are always
present (proved as the C10 invariant), so the `getD 0` default is never
consulted on reachable states. -/
def getTh (th : List (String × ℚ)) (key : String) : ℚ :=
  (th.lookup key).getD 0

/-- The `alerts_generated` list built by `_check_weather_alerts` for one
reading: per-category threshold checks in source order, with high/extreme
mutually exclusive inside a category (`if` / `elif`).  `t` is the clock
used for alert ids. -/
def check_weather_alerts_generated (th : List (String × ℚ))
    (reading : WeatherReading) (t : ℤ) : List WeatherAlert :=
  (if reading.temperature_f ≥ getTh th "temperature_high" then
      [create_temperature_alert reading "high" t]
    else if reading.temperature_f ≤ getTh th "temperature_low" then
      [create_temperature_alert reading "low" t]
    else []) ++
  (if reading.precipitation_inches ≥ getTh th "precipitation_extreme" then
      [create_precipitation_alert reading "extreme" t]
    else if reading.precipitation_inches ≥ getTh th "precipitation_heavy" then
      [create_precipitation_alert reading "heavy" t]
    else []) ++
  (if reading.wind_speed_mph ≥ getTh th "wind_extreme" then
      [create_wind_alert reading "extreme" t]
    else if reading.wind_speed_mph ≥ getTh th "wind_high" then
      [create_wind_alert reading "high" t]
    else []) ++
  (if reading.visibility_miles ≤ getTh th "visibility_low" then
      [create_visibility_alert reading t]
    else []) ++
  (if (reading.uv_index : ℚ) ≥ getTh th "uv_extreme" then
      [create_uv_alert reading t]
    else [])

/-- One full execution of `_check_weather_alerts` on the active-alert list:
append the generated alerts (each is also broadcast), then purge every alert
whose timestamp is not strictly newer than `now - 6 hours`
(`cutoff_time = datetime.now(timezone.utc) - timedelta(hours=6)`; the purge
keeps exactly the alerts with decoded timestamp `> cutoff_time`).
Returns `(generated alerts, new active-alert list)`. -/
def check_weather_alerts_step (th : List (String × ℚ))
    (active_alerts : List WeatherAlert) (reading : WeatherReading)
    (t now : ℤ) : List WeatherAlert × List WeatherAlert :=
  let alerts_generated := check_weather_alerts_generated th reading t
  let cutoff_time := now - 6 * 3600
  let new_active := (active_alerts ++ alerts_generated).filter
    (fun alert => decide (alert.timestamp > cutoff_time))
  (alerts_generated, new_active)

/-! ## Agent state and lifecycle
(weather_monitoring_agent.py, lines 203-229, 345-373, 973-1003) -/

/-- Status of the spawned `asyncio.Task` holding `_monitoring_loop`. -/
inductive TaskStatus where
  | running
  | terminated
deriving DecidableEq, Repr

/-- The mutable fields of `WeatherMonitoringAgent` the claims are about. -/
structure AgentState where
  location : String
  use_real_weather : Bool
  weather_data : List WeatherReading
  active_alerts : List WeatherAlert
  noaa_alerts : List NOAAAlert
  monitoring_active : Bool
  monitoring_task : Option TaskStatus
  alert_thresholds : List (String × ℚ)
deriving DecidableEq, Repr

/-- `self.alert_thresholds` as initialized in `__init__`. -/
def alert_thresholds_init : List (String × ℚ) :=
  [("temperature_high", 95),
   ("temperature_low", 20),
   ("precipitation_heavy", 1/2),
   ("precipitation_extreme", 1),
   ("wind_high", 30),
   ("wind_extreme", 50),
   ("visibility_low", 2),
   ("uv_extreme", 8)]

/-- `start_weather_monitoring(duration_hours)`: if already active, log and
return `False` with no assignment to any field; otherwise set the flag,
spawn the monitoring task, and return `True`. -/
def start_weather_monitoring (s : AgentState) (_duration_hours : ℤ) :
    Bool × AgentState :=
  if s.monitoring_active then (false, s)
  else (true, { s with monitoring_active := true,
                       monitoring_task := some TaskStatus.running })

/-- `stop_weather_monitoring()`: if not active, return `False` with no state
change; otherwise clear the flag, cancel the task and `await` it until it has
fully terminated (`except asyncio.CancelledError: pass`), then return
`True`.  The handle is kept, pointing at the now-terminated task. -/
def stop_weather_monitoring (s : AgentState) : Bool × AgentState :=
  if !s.monitoring_active then (false, s)
  else (true, { s with monitoring_active := false,
                       monitoring_task :=
                         s.monitoring_task.map (fun _ => TaskStatus.terminated) })

/-- Value replacement at an existing key of an insertion-ordered association
list: `self.alert_thresholds[key] = value` for a key already present. -/
def setAssoc : List (String × ℚ) → String → ℚ → List (String × ℚ)
  | [], _, _ => []
  | (k, v) :: rest, key, value =>
      if k = key then (k, value) :: rest else (k, v) :: setAssoc rest key value

/-- The threshold-update loop of `handle_update_alert_thresholds`:
`for key, value in new_thresholds.items(): if key in self.alert_thresholds:
self.alert_thresholds[key] = value`. -/
def update_thresholds (cur : List (String × ℚ)) (new_thresholds : List (String × ℚ)) :
    List (String × ℚ) :=
  new_thresholds.foldl
    (fun acc kv => if (acc.lookup kv.1).isSome then setAssoc acc kv.1 kv.2 else acc)
    cur

/-- Response payload of `handle_update_alert_thresholds`: always
`success = True`, echoing the updated map. -/
structure ThresholdsResponsePayload where
  success : Bool
  updated_thresholds : List (String × ℚ)
deriving DecidableEq, Repr

/-- `handle_update_alert_thresholds`: `message.payload.get('thresholds', {})`
(`none` models a payload without the key), update in place, respond with
`success: True` and the updated map. -/
def handle_update_alert_thresholds (s : AgentState)
    (payload_thresholds : Option (List (String × ℚ))) :
    AgentState × ThresholdsResponsePayload :=
  let new_thresholds := payload_thresholds.getD []
  let updated := update_thresholds s.alert_thresholds new_thresholds
  ({ s with alert_thresholds := updated }, ⟨true, updated⟩)

/-! ## Monitoring cycle, provenance and outgoing payloads
(weather_monitoring_agent.py, lines 375-428, 607-630, 848-874, 1066-1121) -/

/-- Where a cycle's reading came from. -/
inductive Provenance where
  | live
  | simulated
deriving DecidableEq, Repr

/-- Reading acquisition of one `_monitoring_loop` cycle: with the live
provider configured (`use_real_weather and noaa_service and noaa_location`),
a successful NOAA fetch is used as-is (live); a `None` result or an
exception falls back to the simulator for this cycle only.  Without the live
provider, the simulator is used.  The provenance tag records which branch
produced the reading — the code itself keeps no such tag. -/
def monitoring_cycle_reading (useReal : Bool)
    (noaa_result : Option WeatherReading) (sim_reading : WeatherReading) :
    WeatherReading × Provenance :=
  if useReal then
    match noaa_result with
    | some r => (r, Provenance.live)
    | none => (sim_reading, Provenance.simulated)
  else (sim_reading, Provenance.simulated)

/-- Payload of the per-cycle `weather_update` broadcast built by
`_broadcast_weather_update`: the `data_quality` entry is the string literal
`"simulated"`, written unconditionally. -/
structure WeatherUpdatePayload where
  location : String
  weather_data : WeatherReadingDict
  data_quality : String
deriving DecidableEq, Repr

/-- `_broadcast_weather_update`: payload construction. -/
def broadcast_weather_update_payload (location : String) (reading : WeatherReading) :
    WeatherUpdatePayload :=
  ⟨location, reading.to_dict, "simulated"⟩

/-- Payload of the `handle_get_current_weather` response: exactly the keys
`location`, `current_weather` (`weather_data[-1]`, or `None` when empty) and
`monitoring_active` — it has no data-quality field. -/
structure CurrentWeatherPayload where
  location : String
  current_weather : Option WeatherReadingDict
  monitoring_active : Bool
deriving DecidableEq, Repr

/-- `handle_get_current_weather`: payload construction. -/
def handle_get_current_weather_payload (s : AgentState) : CurrentWeatherPayload :=
  ⟨s.location, s.weather_data.getLast?.map WeatherReading.to_dict, s.monitoring_active⟩

/-- History trimming: `if len(self.weather_data) > 168:
self.weather_data = self.weather_data[-168:]`. -/
def trim_weather_data (wd : List WeatherReading) : List WeatherReading :=
  if wd.length > 168 then wd.drop (wd.length - 168) else wd

/-- State effect of one `_monitoring_loop` cycle: acquire a reading
(per-cycle fallback), append it to the trimmed history, run the alert
engine (`_check_weather_alerts`), then the advisory mirror
(`_check_noaa_alerts`).  The broadcasts themselves carry no state. -/
def monitoring_cycle_step (s : AgentState)
    (noaa_result : Option WeatherReading) (sim_reading : WeatherReading)
    (advisories : Option (List NOAAAlert)) (t now : ℤ) : AgentState :=
  let reading := (monitoring_cycle_reading s.use_real_weather noaa_result sim_reading).1
  let wd := trim_weather_data (s.weather_data ++ [reading])
  let active := (check_weather_alerts_step s.alert_thresholds s.active_alerts reading t now).2
  let noaa := (check_noaa_alerts s.use_real_weather s.noaa_alerts advisories).2
  { s with weather_data := wd, active_alerts := active, noaa_alerts := noaa }

/-- State effect of `handle_refresh_noaa_data`: when NOAA is enabled, a
successful fetch appends the converted reading to the trimmed history and
re-runs `_check_noaa_alerts`; otherwise the state is unchanged. -/
def handle_refresh_noaa_data_step (s : AgentState)
    (noaa_result : Option WeatherReading)
    (advisories : Option (List NOAAAlert)) : AgentState :=
  if s.use_real_weather then
    let wd := match noaa_result with
      | some r => trim_weather_data (s.weather_data ++ [r])
      | none => s.weather_data
    let noaa := (check_noaa_alerts s.use_real_weather s.noaa_alerts advisories).2
    { s with weather_data := wd, noaa_alerts := noaa }
  else s

/-- Every state-affecting operation of the agent, each carrying the external
inputs (clock values, fetch results, simulator output, request payload) its
handler consumes.  The remaining handlers (`ping`, `get_status`,
`heartbeat_request`, `get_current_weather`, `get_weather_history`,
`get_weather_forecast`, `get_weather_alerts`, `get_noaa_alerts`,
`weather_analysis_request`) only read the fields modelled here. -/
inductive AgentOp where
  | startMonitoring (duration_hours : ℤ)
  | stopMonitoring
  | updateThresholds (payload_thresholds : Option (List (String × ℚ)))
  | monitorCycle (noaa_result : Option WeatherReading)
      (sim_reading : WeatherReading)
      (advisories : Option (List NOAAAlert)) (t now : ℤ)
  | refreshNoaaData (noaa_result : Option WeatherReading)
      (advisories : Option (List NOAAAlert))
  | readOnlyRequest

/-- The state transition of each operation. -/
def applyOp (s : AgentState) : AgentOp → AgentState
  | AgentOp.startMonitoring d => (start_weather_monitoring s d).2
  | AgentOp.stopMonitoring => (stop_weather_monitoring s).2
  | AgentOp.updateThresholds p => (handle_update_alert_thresholds s p).1
  | AgentOp.monitorCycle nr sr adv t now => monitoring_cycle_step s nr sr adv t now
  | AgentOp.refreshNoaaData nr adv => handle_refresh_noaa_data_step s nr adv
  | AgentOp.readOnlyRequest => s

/-! ## Weather simulator: `WeatherSimulator.generate_hourly_reading`
(weather_monitoring_agent.py, lines 90-198) -/

/-- Round-half-to-even on rationals, the tie rule of Python's built-in
`round`. -/
def roundHalfEven (q : ℚ) : ℤ :=
  if q - ⌊q⌋ < 1/2 then ⌊q⌋
  else if q - ⌊q⌋ > 1/2 then ⌊q⌋ + 1
  else if ⌊q⌋ % 2 = 0 then ⌊q⌋ else ⌊q⌋ + 1

/-- Python `round(x, n)`: round to `n` decimal digits, ties to even. -/
def roundTo (n : ℕ) (q : ℚ) : ℚ :=
  (roundHalfEven (q * 10 ^ n) : ℚ) / 10 ^ n

/-- The simulator's `current_conditions` trend state, mutated between calls
by `_update_trends` (a bounded random walk: `temperature_trend` is drawn from
`uniform(-5, 5)`, `pressure_trend` from `uniform(-10, 10)`,
`storm_probability` clamped to `[0.05, 0.8]`; all start at `0, 0, 0.1`). -/
structure TrendState where
  temperature_trend : ℚ
  pressure_trend : ℚ
  storm_probability : ℚ
deriving DecidableEq, Repr

/-- One outcome of every random draw `generate_hourly_reading` performs, in
source order.  Supports: `tempNoise`, `humNoise`, `windNoise`, `pressNoise`
are `normalvariate` draws (unbounded); `precipChance ∈ [0,1)` from
`random.random()`; `precipAmount ∈ [0.01, 0.5]` and `heavyAmount ∈ [0.5, 2]`
from `uniform`; `windBase ∈ [0, 10]` and `stormWind ∈ [5, 20]` from
`uniform`; `dirIndex` from `random.choice` over the 16 compass directions;
`uvRand ∈ [0, 2]` from `randint(0, 2)`. -/
structure SimDraws where
  tempNoise : ℚ
  humNoise : ℚ
  precipChance : ℚ
  precipAmount : ℚ
  heavyAmount : ℚ
  windBase : ℚ
  stormWind : ℚ
  windNoise : ℚ
  dirIndex : Fin 16
  pressNoise : ℚ
  uvRand : ℤ
deriving DecidableEq, Repr

/-- The 16 compass directions of the `directions` list. -/
def directions : List String :=
  ["N", "NNE", "NE", "ENE", "E", "ESE", "SE", "SSE",
   "S", "SSW", "SW", "WSW", "W", "WNW", "NW", "NNW"]

/-- `temperature = self.base_temp + daily_temp_variation + temp_noise +
self.current_conditions['temperature_trend']`, with `daily_temp_variation =
15 * (0.5 - abs(hour_of_day - 14) / 24)`. -/
def simTemperature (base_temp : ℚ) (trend : TrendState) (hour_of_day : ℤ)
    (d : SimDraws) : ℚ :=
  base_temp + 15 * (1/2 - |(hour_of_day : ℚ) - 14| / 24) + d.tempNoise
    + trend.temperature_trend

/-- `base_humidity = max(30, min(90, 80 - (temperature - base_temp) * 1.5))`;
`humidity = max(20, min(95, base_humidity + normalvariate(0, 10)))`. -/
def simHumidity (base_temp temperature : ℚ) (d : SimDraws) : ℚ :=
  let base_humidity := max 30 (min 90 (80 - (temperature - base_temp) * (3/2)))
  max 20 (min 95 (base_humidity + d.humNoise))

/-- Precipitation: `0.0` unless `random.random() <
storm_probability`; then `uniform(0.01, 0.5)`, overwritten by
`uniform(0.5, 2.0)` when the draw is also below `storm_probability * 0.2`. -/
def simPrecipitation (trend : TrendState) (d : SimDraws) : ℚ :=
  if d.precipChance < trend.storm_probability then
    if d.precipChance < trend.storm_probability * (1/5) then d.heavyAmount
    else d.precipAmount
  else 0

/-- `base_wind = 5 + uniform(0, 10)`, plus `uniform(5, 20)` when
`precipitation > 0.1`; `wind_speed = max(0, base_wind + normalvariate(0, 3))`. -/
def simWindSpeed (precipitation : ℚ) (d : SimDraws) : ℚ :=
  let base_wind := 5 + d.windBase
    + (if precipitation > 1/10 then d.stormWind else 0)
  max 0 (base_wind + d.windNoise)

/-- `pressure = 1013.25 + pressure_trend + normalvariate(0, 5)`. -/
def simPressure (trend : TrendState) (d : SimDraws) : ℚ :=
  (1013.25 : ℚ) + trend.pressure_trend + d.pressNoise

/-- Visibility: `10.0`, degraded to `max(0.5, 10 - precipitation * 8)` under
precipitation above `0.1`, then capped at `5.0` when humidity exceeds 85. -/
def simVisibility (precipitation humidity : ℚ) : ℚ :=
  let visibility : ℚ := 10
  let visibility :=
    if precipitation > 1/10 then max (1/2) (10 - precipitation * 8)
    else visibility
  if humidity > 85 then min visibility 5 else visibility

/-- The qualitative conditions label, in the source's priority order. -/
def simConditions (precipitation temperature humidity wind_speed : ℚ) : String :=
  if precipitation > 1/2 then
    if temperature > 32 then "Heavy Rain" else "Heavy Snow"
  else if precipitation > 1/10 then
    if temperature > 32 then "Rain" else "Snow"
  else if humidity > 85 then "Fog"
  else if wind_speed > 25 then "Windy"
  else if temperature > 90 then "Hot"
  else if temperature < 32 then "Cold"
  else "Clear"

/-- UV index: `min(11, max(1, int((hour_of_day - 6) / 2) + randint(0, 2)))`
during daytime clear/hot conditions, else `0`.  The `int(…)` truncation on
the in-branch non-negative quotient coincides with integer division. -/
def simUvIndex (hour_of_day : ℤ) (conditions : String) (d : SimDraws) : ℤ :=
  if 6 ≤ hour_of_day ∧ hour_of_day ≤ 18 ∧
     (conditions = "Clear" ∨ conditions = "Hot") then
    min 11 (max 1 ((hour_of_day - 6) / 2 + d.uvRand))
  else 0

/-- `WeatherSimulator.generate_hourly_reading(hour_offset)`.

Clock inputs: `now` is the instant of `datetime.now(timezone.utc)` (seconds);
`hour_now` is `datetime.now().hour`.  `hour_of_day = (hour_now + hour_offset)
% 24` with Python's non-negative remainder (`Int.emod`).  The final fields
are rounded exactly as in the source (`round(…, 1)` / `round(…, 2)`). -/
def generate_hourly_reading (base_temp : ℚ) (trend : TrendState)
    (now hour_now hour_offset : ℤ) (d : SimDraws) : WeatherReading :=
  let timestamp := now + hour_offset * 3600
  let hour_of_day := (hour_now + hour_offset).emod 24
  let temperature := simTemperature base_temp trend hour_of_day d
  let humidity := simHumidity base_temp temperature d
  let precipitation := simPrecipitation trend d
  let wind_speed := simWindSpeed precipitation d
  let wind_direction := directions.getD d.dirIndex.val "N"
  let pressure := simPressure trend d
  let visibility := simVisibility precipitation humidity
  let conditions := simConditions precipitation temperature humidity wind_speed
  let uv_index := simUvIndex hour_of_day conditions d
  { timestamp := timestamp
    temperature_f := roundTo 1 temperature
    humidity_percent := roundTo 1 humidity
    precipitation_inches := roundTo 2 precipitation
    wind_speed_mph := roundTo 1 wind_speed
    wind_direction := wind_direction
    pressure_mb := roundTo 1 pressure
    visibility_miles := roundTo 1 visibility
    conditions := conditions
    uv_index := uv_index }

/-! ## Concrete instances used by counterexamples and witnesses -/

/-- A reading as delivered by the live provider (converted NOAA data). -/
def liveReading : WeatherReading :=
  ⟨0, 72, 40, 0, 8, "NW", 1015, 10, "Partly Cloudy", 0⟩

/-- A reading as produced by the simulator. -/
def simReading0 : WeatherReading :=
  ⟨0, 68, 55, 0, 6, "W", 1012, 10, "Clear", 0⟩

/-- A reading at 100 °F, above the default high-temperature threshold. -/
def hotReading : WeatherReading :=
  ⟨0, 100, 50, 0, 5, "N", 1013, 10, "Hot", 0⟩

/-- A reading crossing no default threshold. -/
def calmReading : WeatherReading :=
  ⟨0, 70, 50, 0, 5, "N", 1013, 10, "Clear", 0⟩

/-- A stale alert, created well before the retention window. -/
def oldAlert : WeatherAlert :=
  ⟨"temp_high_1", -100000, "temperature", "high", "old", ["r"], ["shelter"]⟩

/-- A fresh alert, created inside the retention window. -/
def newAlert : WeatherAlert :=
  ⟨"wind_high_2", -10000, "wind", "high", "new", ["r"], ["transportation"]⟩

/-- An agent state with monitoring Active. -/
def sActive : AgentState :=
  ⟨"Boise, ID", false, [calmReading], [], [], true, some TaskStatus.running,
   alert_thresholds_init⟩

/-- An agent state with monitoring Idle. -/
def sIdle : AgentState :=
  ⟨"Boise, ID", false, [calmReading], [], [], false, none, alert_thresholds_init⟩

/-- Draws for the C6 counterexample: every draw lies in its distribution's
support (`normalvariate` is supported on all of ℝ), with an extreme but
possible Gaussian temperature-noise outcome. -/
def cDraws : SimDraws :=
  { tempNoise := 1000, humNoise := 0, precipChance := mkRat 1 2,
    precipAmount := mkRat 1 10, heavyAmount := 1, windBase := 5,
    stormWind := 10, windNoise := 0, dirIndex := 0, pressNoise := 0,
    uvRand := 1 }

/-- Typical draws for the C6 witness, all inside the stated bounds. -/
def wDraws : SimDraws :=
  { tempNoise := 2, humNoise := 5, precipChance := mkRat 1 2,
    precipAmount := mkRat 1 10, heavyAmount := 1, windBase := 5,
    stormWind := 10, windNoise := 1, dirIndex := 3, pressNoise := 3,
    uvRand := 1 }

/-- The simulator's initial trend state (`current_conditions` at
construction). -/
def initTrend : TrendState :=
  ⟨0, 0, mkRat 1 10⟩

/-! ## Helper lemmas -/

theorem setAssoc_keys (l : List (String × ℚ)) (k : String) (v : ℚ) :
    (setAssoc l k v).map Prod.fst = l.map Prod.fst := by
  induction l with
  | nil => rfl
  | cons hd tl ih =>
      by_cases h : hd.1 = k
      · simp [setAssoc, h]
      · simp [setAssoc, h, ih]

theorem update_thresholds_keys (new cur : List (String × ℚ)) :
    (update_thresholds cur new).map Prod.fst = cur.map Prod.fst := by
  induction new generalizing cur with
  | nil => rfl
  | cons hd tl ih =>
      show (update_thresholds (if ((cur.lookup hd.1).isSome) then
        setAssoc cur hd.1 hd.2 else cur) tl).map Prod.fst = cur.map Prod.fst
      by_cases h : (cur.lookup hd.1).isSome
      · rw [if_pos h, ih, setAssoc_keys]
      · rw [if_neg h, ih]

theorem create_temperature_alert_type (r : WeatherReading) (ty : String) (t : ℤ) :
    (create_temperature_alert r ty t).alert_type = "temperature" := rfl

theorem create_precipitation_alert_type (r : WeatherReading) (ty : String) (t : ℤ) :
    (create_precipitation_alert r ty t).alert_type = "precipitation" := rfl

theorem create_wind_alert_type (r : WeatherReading) (ty : String) (t : ℤ) :
    (create_wind_alert r ty t).alert_type = "wind" := rfl

theorem create_visibility_alert_type (r : WeatherReading) (t : ℤ) :
    (create_visibility_alert r t).alert_type = "visibility" := rfl

theorem create_uv_alert_type (r : WeatherReading) (t : ℤ) :
    (create_uv_alert r t).alert_type = "uv" := rfl

theorem roundHalfEven_ge (q : ℚ) : q - 1/2 ≤ (roundHalfEven q : ℚ) := by
  have h1 : (⌊q⌋ : ℚ) ≤ q := Int.floor_le q
  have h2 : q < (⌊q⌋ : ℚ) + 1 := Int.lt_floor_add_one q
  unfold roundHalfEven
  split_ifs <;> push_cast <;> linarith

theorem roundHalfEven_le (q : ℚ) : (roundHalfEven q : ℚ) ≤ q + 1/2 := by
  have h1 : (⌊q⌋ : ℚ) ≤ q := Int.floor_le q
  unfold roundHalfEven
  split_ifs <;> push_cast <;> linarith

theorem roundHalfEven_nonneg (q : ℚ) (hq : 0 ≤ q) :
    (0 : ℚ) ≤ (roundHalfEven q : ℚ) := by
  have h1 : (0 : ℤ) ≤ ⌊q⌋ := Int.floor_nonneg.mpr hq
  have h1q : (0 : ℚ) ≤ (⌊q⌋ : ℚ) := by exact_mod_cast h1
  unfold roundHalfEven
  split_ifs <;> push_cast <;> linarith

theorem one_le_ten_pow (n : ℕ) : (1 : ℚ) ≤ 10 ^ n := by
  induction n with
  | zero => norm_num
  | succ k ih => rw [pow_succ]; nlinarith

theorem roundTo_ge (n : ℕ) (q : ℚ) : q - 1/2 ≤ roundTo n q := by
  have hp : (0 : ℚ) < 10 ^ n := by positivity
  have h1 := one_le_ten_pow n
  have h := roundHalfEven_ge (q * 10 ^ n)
  rw [roundTo, le_div_iff₀ hp]
  nlinarith

theorem roundTo_le (n : ℕ) (q : ℚ) : roundTo n q ≤ q + 1/2 := by
  have hp : (0 : ℚ) < 10 ^ n := by positivity
  have h1 := one_le_ten_pow n
  have h := roundHalfEven_le (q * 10 ^ n)
  rw [roundTo, div_le_iff₀ hp]
  nlinarith

theorem roundTo_nonneg (n : ℕ) (q : ℚ) (hq : 0 ≤ q) : 0 ≤ roundTo n q := by
  have hp : (0 : ℚ) < 10 ^ n := by positivity
  have h := roundHalfEven_nonneg (q * 10 ^ n) (by positivity)
  exact div_nonneg h (le_of_lt hp)

/-! ## Claim C1 — advisory deduplication across polls -/

/-- C1, counterexample: an advisory identifier returned, then absent, then
returned again is broadcast twice by `_check_noaa_alerts` — the "seen set"
is the identifier set of the previous poll's snapshot, which the absence
poll replaces wholesale, so it is not monotonic. -/
theorem advisory_rebroadcast_after_absence :
    ¬ (((runNoaaPolls []
          [some [sampleAdvisory], some [], some [sampleAdvisory]]).1.countP
            (fun a => a.alert_id == "NWS-A1")) ≤ 1) := by decide

/-- C1, amended: in a successful poll, exactly the fetched advisories whose
identifier is absent from the *immediately preceding* snapshot are broadcast,
and the cache is replaced wholesale by the fetched list (so the comparison
set can shrink); a failed poll, or a poll with the mirror disabled,
broadcasts nothing and leaves the cache unchanged. -/
theorem check_noaa_alerts_poll_characterization
    (s cur : List NOAAAlert) (f : Option (List NOAAAlert)) (a : NOAAAlert) :
    (a ∈ (check_noaa_alerts true s (some cur)).1 ↔
      a ∈ cur ∧ (s.map (fun b => b.alert_id)).contains a.alert_id = false) ∧
    (check_noaa_alerts true s (some cur)).2 = cur ∧
    check_noaa_alerts true s none = ([], s) ∧
    check_noaa_alerts false s f = ([], s) := by
  refine ⟨?_, rfl, rfl, rfl⟩
  simp [check_noaa_alerts, List.mem_filter]

/-! ## Claim C2 — retry bound of `_make_request` -/

/-- C2: under sustained throttling `_make_request` never completes — for
every `n`, a run against `n` consecutive 429 responses is still re-invoking
itself — and two 429 responses followed by a success already cost three
requests, exceeding the single claimed retry.  The code's own comment
("Retry once") is contradicted: the recursion carries no counter. -/
theorem make_request_unbounded_retry :
    (∀ n : ℕ,
      make_request (List.replicate n NoaaResponse.throttled) = none) ∧
    make_request [NoaaResponse.throttled, NoaaResponse.throttled,
      NoaaResponse.ok "data"] = some (some "data", 3) := by
  refine ⟨fun n => ?_, rfl⟩
  induction n with
  | zero => rfl
  | succ k ih => simp [List.replicate, make_request, ih]

/-! ## Claim C3 — encode/decode round trip -/

/-- C3, counterexample: a `CrossLanguageMessage` decoded at a clock instant
different from its creation instant does not round-trip — `from_dict`
ignores the dictionary's `timestamp` entry and stamps the decoded message
with the decode-time clock. -/
theorem message_roundtrip_timestamp_counterexample :
    CrossLanguageMessage.from_dict 1 (CrossLanguageMessage.to_dict
      (CrossLanguageMessage.make 0 "m1" "ping" "src" "dst" "p" "md")) ≠
    CrossLanguageMessage.make 0 "m1" "ping" "src" "dst" "p" "md" := by decide

/-- C3, amended: `WeatherReading` round-trips field for field;
`CrossLanguageMessage` round-trips on every field except `timestamp`, which
is reset to the decode-time clock (so the round trip is the identity exactly
when decoding happens at the original creation instant). -/
theorem roundtrip_amended :
    (∀ r : WeatherReading, WeatherReading.from_dict r.to_dict = r) ∧
    (∀ (m : CrossLanguageMessage) (now : ℤ),
      CrossLanguageMessage.from_dict now m.to_dict =
        { m with timestamp := now }) :=
  ⟨fun _ => rfl, fun _ _ => rfl⟩

/-! ## Claim C4 — data-quality flag -/

/-- C4, counterexample: a cycle in which the live provider delivers the
reading (provenance live) still broadcasts `data_quality = "simulated"` —
the flag is a hard-coded literal, not a provenance indicator. -/
theorem weather_update_flag_counterexample :
    (monitoring_cycle_reading true (some liveReading) simReading0).2 =
      Provenance.live ∧
    (broadcast_weather_update_payload "Boise, ID"
      (monitoring_cycle_reading true (some liveReading) simReading0).1).data_quality
      = "simulated" :=
  ⟨rfl, rfl⟩

/-- C4, amended: the per-cycle `weather_update` broadcast carries
`data_quality = "simulated"` unconditionally, whatever the reading's
provenance; and the `get_current_weather` response carries no data-quality
flag at all — its payload consists exactly of `location`, `current_weather`
and `monitoring_active`. -/
theorem weather_update_flag_amended :
    (∀ (useReal : Bool) (nr : Option WeatherReading) (sr : WeatherReading)
        (loc : String),
      (broadcast_weather_update_payload loc
        (monitoring_cycle_reading useReal nr sr).1).data_quality = "simulated") ∧
    (∀ s : AgentState, handle_get_current_weather_payload s =
      ⟨s.location, s.weather_data.getLast?.map WeatherReading.to_dict,
       s.monitoring_active⟩) :=
  ⟨fun _ _ _ _ => rfl, fun _ => rfl⟩

/-! ## Claim C5 — capability list vs registered handlers -/

/-- C5, counterexample: `update_alert_thresholds` has a registered handler
but does not appear in the list returned by `get_capabilities`, so the
capability list is not a superset of the registered request types. -/
theorem capabilities_missing_update_thresholds :
    "update_alert_thresholds" ∈ registered_handler_types ∧
    "update_alert_thresholds" ∉ get_capabilities := by decide

/-- C5, amended: the capability list contains the base set
`{ping, status, heartbeat}` and every request type registered by
`register_weather_handlers` except `update_alert_thresholds`, which is
registered but omitted; the base agent's default-registered types
`shutdown`, `get_status` and `heartbeat_request` are likewise registered but
absent from the list. -/
theorem capabilities_amended :
    (["ping", "status", "heartbeat"].all
      (fun ty => get_capabilities.contains ty) = true) ∧
    (weather_handler_types.all
      (fun ty => ty == "update_alert_thresholds" ||
        get_capabilities.contains ty) = true) ∧
    (get_capabilities.contains "update_alert_thresholds" = false) ∧
    (["shutdown", "get_status", "heartbeat_request"].all
      (fun ty => registered_handler_types.contains ty &&
        !get_capabilities.contains ty) = true) := by decide

/-! ## Claim C7 — start/stop state machine -/

/-- C7: `start_weather_monitoring` while Active returns `False` and leaves
the whole agent state (flag and task handle included) unchanged;
`stop_weather_monitoring` while Idle returns `False` and leaves the state
unchanged; a successful stop returns `True` only after the monitoring task
has fully terminated. -/
theorem start_stop_state_machine (s : AgentState) (d : ℤ) :
    (s.monitoring_active = true →
      start_weather_monitoring s d = (false, s)) ∧
    (s.monitoring_active = false →
      stop_weather_monitoring s = (false, s)) ∧
    (s.monitoring_active = true →
      (stop_weather_monitoring s).1 = true ∧
      ∀ ts ∈ (stop_weather_monitoring s).2.monitoring_task,
        ts = TaskStatus.terminated) := by
  refine ⟨fun h => ?_, fun h => ?_, fun h => ?_⟩
  · simp [start_weather_monitoring, h]
  · simp [stop_weather_monitoring, h]
  · refine ⟨by simp [stop_weather_monitoring, h], fun ts hts => ?_⟩
    simp only [stop_weather_monitoring, h, Bool.not_true, Bool.false_eq_true,
      if_false] at hts
    cases hmt : s.monitoring_task with
    | none => simp [hmt] at hts
    | some t0 => simp [hmt] at hts; exact hts.symm

/-- C7, witness: the state machine evaluated on a concrete Active state and
a concrete Idle state. -/
theorem start_stop_state_machine_witness :
    start_weather_monitoring sActive 168 = (false, sActive) ∧
    stop_weather_monitoring sIdle = (false, sIdle) ∧
    ((stop_weather_monitoring sActive).1 = true ∧
      ∀ ts ∈ (stop_weather_monitoring sActive).2.monitoring_task,
        ts = TaskStatus.terminated) :=
  ⟨(start_stop_state_machine sActive 168).1 rfl,
   (start_stop_state_machine sIdle 0).2.1 rfl,
   (start_stop_state_machine sActive 0).2.2 rfl⟩

/-! ## Claim C10 — threshold keys invariant -/

/-- C10: the initial threshold map has exactly the eight documented keys;
`handle_update_alert_thresholds` always answers `success = True`; a
single-entry update writes the value only when the key already exists and
is the identity otherwise; and no operation of the agent — threshold
updates included — changes the key set of the threshold map. -/
theorem threshold_keys_invariant :
    alert_thresholds_init.map Prod.fst =
      ["temperature_high", "temperature_low", "precipitation_heavy",
       "precipitation_extreme", "wind_high", "wind_extreme",
       "visibility_low", "uv_extreme"] ∧
    (∀ (s : AgentState) (p : Option (List (String × ℚ))),
      (handle_update_alert_thresholds s p).2.success = true) ∧
    (∀ (cur : List (String × ℚ)) (k : String) (v : ℚ),
      update_thresholds cur [(k, v)] =
        if (cur.lookup k).isSome then setAssoc cur k v else cur) ∧
    (∀ (s : AgentState) (op : AgentOp),
      (applyOp s op).alert_thresholds.map Prod.fst =
        s.alert_thresholds.map Prod.fst) := by
  refine ⟨rfl, fun _ _ => rfl, fun _ _ _ => rfl, fun s op => ?_⟩
  cases op with
  | startMonitoring d =>
      by_cases h : s.monitoring_active <;>
        simp [applyOp, start_weather_monitoring, h]
  | stopMonitoring =>
      by_cases h : s.monitoring_active <;>
        simp [applyOp, stop_weather_monitoring, h]
  | updateThresholds p =>
      simp [applyOp, handle_update_alert_thresholds, update_thresholds_keys]
  | monitorCycle nr sr adv t now =>
      simp [applyOp, monitoring_cycle_step]
  | refreshNoaaData nr adv =>
      by_cases h : s.use_real_weather <;>
        simp [applyOp, handle_refresh_noaa_data_step, h]
  | readOnlyRequest => rfl

/-! ## Claim C8 — temperature alerts -/

/-- C8: a reading at or above the high-temperature threshold generates
exactly one temperature-category alert, with a non-empty recommendation list
and `shelter` among its affected services; a reading strictly between the
low and high thresholds generates no temperature-category alert. -/
theorem temperature_alert_exactly_one (th : List (String × ℚ))
    (r : WeatherReading) (t : ℤ) :
    (getTh th "temperature_high" ≤ r.temperature_f →
      ((check_weather_alerts_generated th r t).filter
        (fun a => decide (a.alert_type = "temperature"))).length = 1 ∧
      ∀ a ∈ (check_weather_alerts_generated th r t).filter
          (fun a => decide (a.alert_type = "temperature")),
        a.recommendations ≠ [] ∧ "shelter" ∈ a.affected_services) ∧
    (getTh th "temperature_low" < r.temperature_f →
      r.temperature_f < getTh th "temperature_high" →
      (check_weather_alerts_generated th r t).filter
        (fun a => decide (a.alert_type = "temperature")) = []) := by
  constructor
  · intro h
    have hfilter : (check_weather_alerts_generated th r t).filter
        (fun a => decide (a.alert_type = "temperature")) =
        [create_temperature_alert r "high" t] := by
      simp only [check_weather_alerts_generated, ge_iff_le, if_pos h,
        List.filter_append]
      split_ifs <;>
        simp [create_temperature_alert, create_precipitation_alert,
          create_wind_alert, create_visibility_alert, create_uv_alert]
    rw [hfilter]
    refine ⟨rfl, fun a ha => ?_⟩
    rw [List.mem_singleton] at ha
    subst ha
    simp [create_temperature_alert]
  · intro hlo hhi
    simp only [check_weather_alerts_generated, ge_iff_le,
      if_neg (not_le.mpr hhi), if_neg (not_le.mpr hlo), List.filter_append]
    split_ifs <;>
      simp [create_temperature_alert, create_precipitation_alert,
        create_wind_alert, create_visibility_alert, create_uv_alert]

/-- C8, witness: the alert engine evaluated with the default thresholds on a
100 °F reading (threshold 95 °F). -/
theorem temperature_alert_exactly_one_witness :
    ((check_weather_alerts_generated alert_thresholds_init hotReading 0).filter
      (fun a => decide (a.alert_type = "temperature"))).length = 1 ∧
    ∀ a ∈ (check_weather_alerts_generated alert_thresholds_init hotReading 0).filter
        (fun a => decide (a.alert_type = "temperature")),
      a.recommendations ≠ [] ∧ "shelter" ∈ a.affected_services :=
  (temperature_alert_exactly_one alert_thresholds_init hotReading 0).1
    (by decide)

/-! ## Claim C9 — alert retention purge -/

/-- C9: after any single execution of `_check_weather_alerts` — on any
reading, whether or not it crosses a threshold — every alert created before
the six-hour retention window is absent from the active-alert list, and
every alert of the incoming list created inside the window is still
present. -/
theorem alert_retention_purge (th : List (String × ℚ))
    (active : List WeatherAlert) (r : WeatherReading) (t now : ℤ)
    (a : WeatherAlert) :
    (a.timestamp < now - 6 * 3600 →
      a ∉ (check_weather_alerts_step th active r t now).2) ∧
    (a ∈ active → now - 6 * 3600 < a.timestamp →
      a ∈ (check_weather_alerts_step th active r t now).2) := by
  constructor
  · intro hold hmem
    simp only [check_weather_alerts_step, List.mem_filter,
      decide_eq_true_eq] at hmem
    omega
  · intro hmem hnew
    simp only [check_weather_alerts_step, List.mem_filter, decide_eq_true_eq]
    exact ⟨List.mem_append_left _ hmem, hnew⟩

/-- C9, witness: one evaluation on a reading crossing no threshold, at clock
`now = 0`: the alert from before the window (timestamp −100000 < −21600)
is purged, the one inside the window (timestamp −10000) remains. -/
theorem alert_retention_purge_witness :
    oldAlert ∉ (check_weather_alerts_step alert_thresholds_init
      [oldAlert, newAlert] calmReading 0 0).2 ∧
    newAlert ∈ (check_weather_alerts_step alert_thresholds_init
      [oldAlert, newAlert] calmReading 0 0).2 :=
  ⟨(alert_retention_purge alert_thresholds_init [oldAlert, newAlert]
      calmReading 0 0 oldAlert).1 (by decide),
   (alert_retention_purge alert_thresholds_init [oldAlert, newAlert]
      calmReading 0 0 newAlert).2 (by decide) (by decide)⟩

/-! ## Claim C6 — simulator output bounds -/

/-- C6, counterexample: the simulator's Gaussian noise draws are unbounded,
so not every outcome satisfies the claimed bounds — with a temperature-noise
outcome of 1000 (inside `normalvariate`'s support) and every other draw
inside its support, the generated reading has `temperature_f = 1077.5`,
far above 150. -/
theorem simulator_bounds_counterexample :
    ¬ ((generate_hourly_reading 70 initTrend 0 14 0 cDraws).temperature_f
        ≤ 150) := by
  intro hle
  have h1 : Int.emod 14 24 = 14 := by decide
  have h4 : (generate_hourly_reading 70 initTrend 0 14 0 cDraws).temperature_f
      = roundTo 1 (simTemperature 70 initTrend 14 cDraws) := by
    simp [generate_hourly_reading, h1]
  have h2 : simTemperature 70 initTrend 14 cDraws = 2155/2 := by
    simp only [simTemperature, initTrend, cDraws]
    push_cast
    norm_num
  have h3 := roundTo_ge 1 (simTemperature 70 initTrend 14 cDraws)
  rw [h4, h2] at hle
  rw [h2] at h3
  linarith

/-- C6, amended: for the agent's simulator (base temperature 70), any trend
state, any clock, and any draws inside their distributions' supports, the
bounds on humidity, precipitation, wind speed, visibility and UV hold
unconditionally; the temperature and pressure bounds additionally hold
whenever the trend state is reachable (the `_update_trends` random walk
keeps `temperature_trend ∈ [-5, 5]` and `pressure_trend ∈ [-10, 10]`) and
the two unbounded Gaussian draws are moderate (`|temp_noise| ≤ 50`,
`|pressure_noise| ≤ 70`); without such a bound the Gaussian noise violates
them (see the counterexample). -/
theorem simulator_bounds_amended (trend : TrendState)
    (now hour_now hour_offset : ℤ) (d : SimDraws)
    (hpa₁ : mkRat 1 100 ≤ d.precipAmount) (hpa₂ : d.precipAmount ≤ mkRat 1 2)
    (hha₁ : mkRat 1 2 ≤ d.heavyAmount) (hha₂ : d.heavyAmount ≤ 2) :
    (0 ≤ (generate_hourly_reading 70 trend now hour_now hour_offset d).humidity_percent ∧
     (generate_hourly_reading 70 trend now hour_now hour_offset d).humidity_percent ≤ 100 ∧
     0 ≤ (generate_hourly_reading 70 trend now hour_now hour_offset d).precipitation_inches ∧
     0 ≤ (generate_hourly_reading 70 trend now hour_now hour_offset d).wind_speed_mph ∧
     0 ≤ (generate_hourly_reading 70 trend now hour_now hour_offset d).visibility_miles ∧
     (generate_hourly_reading 70 trend now hour_now hour_offset d).visibility_miles ≤ 15 ∧
     0 ≤ (generate_hourly_reading 70 trend now hour_now hour_offset d).uv_index ∧
     (generate_hourly_reading 70 trend now hour_now hour_offset d).uv_index ≤ 11) ∧
    (-5 ≤ trend.temperature_trend → trend.temperature_trend ≤ 5 →
     -10 ≤ trend.pressure_trend → trend.pressure_trend ≤ 10 →
     -50 ≤ d.tempNoise → d.tempNoise ≤ 50 →
     -70 ≤ d.pressNoise → d.pressNoise ≤ 70 →
     0 ≤ (generate_hourly_reading 70 trend now hour_now hour_offset d).temperature_f ∧
     (generate_hourly_reading 70 trend now hour_now hour_offset d).temperature_f ≤ 150 ∧
     900 ≤ (generate_hourly_reading 70 trend now hour_now hour_offset d).pressure_mb ∧
     (generate_hourly_reading 70 trend now hour_now hour_offset d).pressure_mb ≤ 1100) := by
  rw [show (mkRat 1 100 : ℚ) = 1/100 by norm_num [mkRat, Rat.normalize]] at hpa₁
  rw [show (mkRat 1 2 : ℚ) = 1/2 by norm_num [mkRat, Rat.normalize]] at hpa₂ hha₁
  simp only [generate_hourly_reading]
  set hod := (hour_now + hour_offset).emod 24 with hhod
  have hod₁ : (0 : ℤ) ≤ hod := Int.emod_nonneg _ (by norm_num)
  have hod₂ : hod < 24 := Int.emod_lt_of_pos _ (by norm_num)
  have hodq₁ : (0 : ℚ) ≤ (hod : ℚ) := by exact_mod_cast hod₁
  have hodq₂ : (hod : ℚ) ≤ 23 := by exact_mod_cast (by omega : hod ≤ 23)
  have habs₁ : |(hod : ℚ) - 14| ≤ 14 := by
    rw [abs_le]; constructor <;> linarith
  have habs₀ : 0 ≤ |(hod : ℚ) - 14| := abs_nonneg _
  have hH₁ : (20 : ℚ) ≤ simHumidity 70 (simTemperature 70 trend hod d) d := by
    simp only [simHumidity]; exact le_max_left _ _
  have hH₂ : simHumidity 70 (simTemperature 70 trend hod d) d ≤ 95 := by
    simp only [simHumidity]; exact max_le (by norm_num) (min_le_left _ _)
  have hP₁ : 0 ≤ simPrecipitation trend d := by
    simp only [simPrecipitation]; split_ifs <;> linarith
  have hW₁ : 0 ≤ simWindSpeed (simPrecipitation trend d) d := by
    simp only [simWindSpeed]; exact le_max_left _ _
  have hV₁ : (1/2 : ℚ) ≤ simVisibility (simPrecipitation trend d)
      (simHumidity 70 (simTemperature 70 trend hod d) d) := by
    simp only [simVisibility]
    split_ifs with hfog hpre hpre
    · exact le_min (le_max_left _ _) (by norm_num)
    · exact le_min (by norm_num) (by norm_num)
    · exact le_max_left _ _
    · norm_num
  have hV₂ : simVisibility (simPrecipitation trend d)
      (simHumidity 70 (simTemperature 70 trend hod d) d) ≤ 10 := by
    simp only [simVisibility]
    split_ifs with hfog hpre hpre
    · exact le_trans (min_le_right _ _) (by norm_num)
    · exact le_trans (min_le_right _ _) (by norm_num)
    · exact max_le (by norm_num) (by linarith)
    · norm_num
  have hU₁ : (0 : ℤ) ≤ simUvIndex hod
      (simConditions (simPrecipitation trend d) (simTemperature 70 trend hod d)
        (simHumidity 70 (simTemperature 70 trend hod d) d)
        (simWindSpeed (simPrecipitation trend d) d)) d := by
    simp only [simUvIndex]
    split_ifs
    · exact le_min (by norm_num)
        (le_trans (by norm_num) (le_max_left 1 _))
    · exact le_refl 0
  have hU₂ : simUvIndex hod
      (simConditions (simPrecipitation trend d) (simTemperature 70 trend hod d)
        (simHumidity 70 (simTemperature 70 trend hod d) d)
        (simWindSpeed (simPrecipitation trend d) d)) d ≤ 11 := by
    simp only [simUvIndex]
    split_ifs
    · exact min_le_left _ _
    · norm_num
  constructor
  · refine ⟨?_, ?_, ?_, ?_, ?_, ?_, hU₁, hU₂⟩
    · linarith [roundTo_ge 1 (simHumidity 70 (simTemperature 70 trend hod d) d)]
    · linarith [roundTo_le 1 (simHumidity 70 (simTemperature 70 trend hod d) d)]
    · exact roundTo_nonneg 2 _ hP₁
    · exact roundTo_nonneg 1 _ hW₁
    · linarith [roundTo_ge 1 (simVisibility (simPrecipitation trend d)
        (simHumidity 70 (simTemperature 70 trend hod d) d))]
    · linarith [roundTo_le 1 (simVisibility (simPrecipitation trend d)
        (simHumidity 70 (simTemperature 70 trend hod d) d))]
  · intro htt₁ htt₂ hpt₁ hpt₂ htn₁ htn₂ hpn₁ hpn₂
    have hT₁ : (55/4 : ℚ) ≤ simTemperature 70 trend hod d := by
      simp only [simTemperature]; linarith
    have hT₂ : simTemperature 70 trend hod d ≤ (265/2 : ℚ) := by
      simp only [simTemperature]; linarith
    have h1013 : (1013.25 : ℚ) = 4053/4 := by norm_num
    have hPr₁ : (3733/4 : ℚ) ≤ simPressure trend d := by
      simp only [simPressure, h1013]; linarith
    have hPr₂ : simPressure trend d ≤ (4373/4 : ℚ) := by
      simp only [simPressure, h1013]; linarith
    refine ⟨?_, ?_, ?_, ?_⟩
    · linarith [roundTo_ge 1 (simTemperature 70 trend hod d)]
    · linarith [roundTo_le 1 (simTemperature 70 trend hod d)]
    · linarith [roundTo_ge 1 (simPressure trend d)]
    · linarith [roundTo_le 1 (simPressure trend d)]

/-- C6, witness: the bounds evaluated at the simulator's initial trend
state, noon, and a set of typical in-support draws (which also satisfy the
Gaussian-noise bounds guarding the temperature and pressure conjuncts). -/
theorem simulator_bounds_amended_witness :
    (0 ≤ (generate_hourly_reading 70 initTrend 0 12 0 wDraws).humidity_percent ∧
     (generate_hourly_reading 70 initTrend 0 12 0 wDraws).humidity_percent ≤ 100 ∧
     0 ≤ (generate_hourly_reading 70 initTrend 0 12 0 wDraws).precipitation_inches ∧
     0 ≤ (generate_hourly_reading 70 initTrend 0 12 0 wDraws).wind_speed_mph ∧
     0 ≤ (generate_hourly_reading 70 initTrend 0 12 0 wDraws).visibility_miles ∧
     (generate_hourly_reading 70 initTrend 0 12 0 wDraws).visibility_miles ≤ 15 ∧
     0 ≤ (generate_hourly_reading 70 initTrend 0 12 0 wDraws).uv_index ∧
     (generate_hourly_reading 70 initTrend 0 12 0 wDraws).uv_index ≤ 11) ∧
    (0 ≤ (generate_hourly_reading 70 initTrend 0 12 0 wDraws).temperature_f ∧
     (generate_hourly_reading 70 initTrend 0 12 0 wDraws).temperature_f ≤ 150 ∧
     900 ≤ (generate_hourly_reading 70 initTrend 0 12 0 wDraws).pressure_mb ∧
     (generate_hourly_reading 70 initTrend 0 12 0 wDraws).pressure_mb ≤ 1100) :=
  ⟨(simulator_bounds_amended initTrend 0 12 0 wDraws
      (by decide) (by decide) (by decide) (by decide)).1,
   (simulator_bounds_amended initTrend 0 12 0 wDraws
      (by decide) (by decide) (by decide) (by decide)).2
      (by decide) (by decide) (by decide) (by decide)
      (by decide) (by decide) (by decide) (by decide)⟩

end RipeTomato
